import Mathlib

/-!
Verification of the `inject` package of the stahp repository: a shallow
embedding of the dependency-injection container (service collection,
provider, lifetimes, lazy-construction protocol, typed resolve helper)
together with theorems settling the specification claims.

Modelling conventions:
- `reflect.Type` values are embedded as the inductive `GoType`, covering the
  concrete types the repository itself uses in its tests plus pointers.
- Go values carry identity: a pointer value records the address it was
  allocated at, and `reflect.New` style allocation draws fresh addresses from
  an explicit counter threaded through resolution.
- Go maps held in struct fields are `Option` of association lists: `none` is
  the nil map (reads succeed and find nothing, writes panic); map aliasing is
  modelled separately by a small heap of map cells for the copy-on-build
  claim.
- factory closures are embedded as the data type `factoryFunc` listing the
  shapes of factory the package constructs or its tests register; running a
  factory threads the allocation counter and may fail.
- Functions that can panic in Go return a `GoResult`, whose `panicked` case
  records the panic message.
-/

namespace Inject

/-- Embedded `reflect.Kind` values (only the kinds the package inspects). -/
inductive GoKind
  | struct
  | pointer
  | interface
  | int
  | string
deriving DecidableEq

/-- Embedded `reflect.Type`: the interface and struct types defined by the
repository's own test files (`fooer`, `assignableToFooer`,
`structWithUnexportedFields`), basic kinds, and pointer types. -/
inductive GoType
  | fooer
  | assignableToFooer
  | structWithUnexportedFields
  | intT
  | stringT
  | ptr (elem : GoType)
deriving DecidableEq

/-- Kind of an embedded type, as `reflect.Type.Kind` reports it. -/
def GoType.kind : GoType → GoKind
  | .fooer => .interface
  | .assignableToFooer => .struct
  | .structWithUnexportedFields => .struct
  | .intT => .int
  | .stringT => .string
  | .ptr _ => .pointer

/-- Whether a type's method set satisfies the `fooer` interface:
`assignableToFooer` declares `func (assignableToFooer) Foo()`, so both the
struct and its pointer type implement `fooer`. -/
def implementsFooer : GoType → Bool
  | .assignableToFooer => true
  | .ptr .assignableToFooer => true
  | _ => false

/-- Embedded `reflect.Type.AssignableTo`: identical types are assignable, and
a type is assignable to the `fooer` interface when it implements it. -/
def GoType.assignableTo (t u : GoType) : Bool :=
  t = u || (u = GoType.fooer && implementsFooer t)

/-- Embedded Go runtime values, with pointer identity made explicit: a
pointer value remembers the address of its allocation, so two values are the
identical instance exactly when they are equal here. -/
inductive GoValue
  | structVal (t : GoType)
  | ptrVal (elem : GoType) (addr : Nat)
  | intVal (n : Int)
  | strVal (s : String)
deriving DecidableEq

/-- Dynamic type of an embedded value. -/
def GoValue.typeOf : GoValue → GoType
  | .structVal t => t
  | .ptrVal e _ => .ptr e
  | .intVal _ => .intT
  | .strVal _ => .stringT

/-- Result of a Go function call that may panic instead of returning. -/
inductive GoResult (α : Type)
  | ret (v : α)
  | panicked (msg : String)
deriving DecidableEq

/-- ServiceLifetime is an `int` in the source (`type ServiceLifetime int`),
so it is embedded as `Nat`; the named constants start at `iota + 1`. -/
abbrev ServiceLifetime := Nat

/-- A Transient service has a new instance created every time it resolves. -/
def Transient : ServiceLifetime := 1

/-- A Scoped service has a single instance created per ServiceProvider. -/
def Scoped : ServiceLifetime := 2

/-- A Singleton service is documented to have a single instance per provider
tree. -/
def Singleton : ServiceLifetime := 3

/-- Embedded factory closures (`type factoryFunc func(ServiceResolver) (any, error)`).
The closures the package builds or its tests register are captured as data:
`zeroValue t` is the `reflect.Zero(type_)` default factory for struct kinds,
`newPtr e` is the `reflect.New(elemType)` default factory for pointer kinds
(allocating a fresh address per invocation), `pureVal v` is a user factory
returning a fixed value, and `failing msg` is a user factory returning an
error. -/
inductive factoryFunc
  | zeroValue (t : GoType)
  | newPtr (elem : GoType)
  | pureVal (v : GoValue)
  | failing (msg : String)
deriving DecidableEq

/-- Run a factory with the allocation counter: returns the produced value and
the next counter, or the factory's error. -/
def runFactory : factoryFunc → Nat → Except String (GoValue × Nat)
  | .zeroValue t, ctr => .ok (.structVal t, ctr)
  | .newPtr e, ctr => .ok (.ptrVal e ctr, ctr + 1)
  | .pureVal v, ctr => .ok (v, ctr)
  | .failing msg, _ => .error msg

/-- A registration couples a lifetime with a factory
(`type serviceRegistration struct { lifetime ServiceLifetime; factory factoryFunc }`). -/
structure serviceRegistration where
  lifetime : ServiceLifetime
  factory : factoryFunc
deriving DecidableEq

/-- Contents of a `map[reflect.Type]serviceRegistration`, as an association
list; insertion prepends, and lookup takes the first match, so the newest
entry for a key wins (Go map overwrite semantics, observationally). -/
abbrev RegMap := List (GoType × serviceRegistration)

/-- Lookup in registration map contents. -/
def lookupReg : RegMap → GoType → Option serviceRegistration
  | [], _ => none
  | (k, v) :: rest, t => if k = t then some v else lookupReg rest t

/-- Lookup in a possibly-nil registration map: reading a nil Go map succeeds
and finds nothing. -/
def lookupRegs : Option RegMap → GoType → Option serviceRegistration
  | none, _ => none
  | some m, t => lookupReg m t

/-- Contents of the `map[reflect.Type]any` scoped-instance cache. -/
abbrev CacheMap := List (GoType × GoValue)

/-- Lookup in cache map contents. -/
def lookupVal : CacheMap → GoType → Option GoValue
  | [], _ => none
  | (k, v) :: rest, t => if k = t then some v else lookupVal rest t

/-- Lookup in a possibly-nil cache map. -/
def lookupCache : Option CacheMap → GoType → Option GoValue
  | none, _ => none
  | some m, t => lookupVal m t

/-- Writing to a Go map: assignment to an entry in a nil map panics, which is
modelled as `none`; otherwise the entry is added (newest first). -/
def goMapWrite (m : Option CacheMap) (k : GoType) (v : GoValue) : Option CacheMap :=
  match m with
  | none => none
  | some l => some ((k, v) :: l)

/-- A ServiceCollection holds a possibly-nil registration map
(`registrations map[reflect.Type]serviceRegistration`). -/
structure ServiceCollection where
  registrations : Option RegMap
deriving DecidableEq

/-- addRegistration allocates the nil map on first use, then stores the
registration under the service type (overwriting any previous one). -/
def addRegistration (services : ServiceCollection) (serviceType : GoType)
    (registration : serviceRegistration) : ServiceCollection :=
  match services.registrations with
  | none => ⟨some [(serviceType, registration)]⟩
  | some m => ⟨some ((serviceType, registration) :: m)⟩

/-- A ServiceProvider holds an immutable registration snapshot and a
possibly-nil scoped-instance cache (the mutex is elided: resolution is
modelled sequentially). -/
structure ServiceProvider where
  registrations : Option RegMap
  scopedInstances : Option CacheMap
deriving DecidableEq

/-- Build copies the collection's registrations into a freshly-made map and
pairs it with a fresh empty scoped-instance cache; a nil receiver is an
error. Aliasing of the copy is treated by the heap model below. -/
def ServiceCollection.Build (services : Option ServiceCollection) :
    Except String ServiceProvider :=
  match services with
  | none => .error "cannot build ServiceProvider from nil ServiceCollection"
  | some services =>
    match services.registrations with
    | none => .ok ⟨some [], some []⟩
    | some m => .ok ⟨some m, some []⟩

/-- Errors `ServiceProvider.Resolve` can return. -/
inductive ResolveError
  | nilServiceProvider
  | unregistered (t : GoType)
  | factoryError (msg : String)
deriving DecidableEq

/-- Outcome of a resolution: a value, an error, or a panic. -/
inductive ResolveOutcome
  | ok (v : GoValue)
  | err (e : ResolveError)
  | panicked (msg : String)
deriving DecidableEq

/-- Result of `resolveScoped`: outcome, updated provider state, next
allocation address, and whether the factory was invoked during the call. -/
structure ScopedResult where
  outcome : ResolveOutcome
  provider : ServiceProvider
  nextAddr : Nat
  factoryInvoked : Bool
deriving DecidableEq

/-- Result of `Resolve`: outcome, updated provider state, next allocation
address, and whether the registration's factory was invoked. -/
structure ResolveResult where
  outcome : ResolveOutcome
  provider : Option ServiceProvider
  nextAddr : Nat
  factoryInvoked : Bool
deriving DecidableEq

/-- resolveScoped: check the cache without locking; under the lock check
again (sequentially the re-check re-runs the same lookup); on a miss run the
factory, return its error unchanged on failure, otherwise lazily allocate the
cache if it is still the nil map, write the instance, and return it. -/
def ServiceProvider.resolveScoped (provider : ServiceProvider) (type_ : GoType)
    (factory : factoryFunc) (ctr : Nat) : ScopedResult :=
  match lookupCache provider.scopedInstances type_ with
  | some service => ⟨.ok service, provider, ctr, false⟩
  | none =>
    match lookupCache provider.scopedInstances type_ with
    | some service => ⟨.ok service, provider, ctr, false⟩
    | none =>
      match runFactory factory ctr with
      | .error msg => ⟨.err (.factoryError msg), provider, ctr, true⟩
      | .ok (service, ctr') =>
        let cache :=
          match provider.scopedInstances with
          | none => some ([] : CacheMap)
          | some l => some l
        match goMapWrite cache type_ service with
        | none => ⟨.panicked "assignment to entry in nil map", provider, ctr', true⟩
        | some l => ⟨.ok service, { provider with scopedInstances := some l }, ctr', true⟩

/-- Resolve: a nil provider is an error; an unregistered type is an error;
otherwise dispatch on the registration's lifetime exactly as the source
switch does — Transient invokes the factory, Scoped goes through
`resolveScoped`, Singleton invokes the factory directly (the source has no
Singleton cache), and any other lifetime value hits the unreachable panic. -/
def ServiceProvider.Resolve (provider : Option ServiceProvider) (type_ : GoType)
    (ctr : Nat) : ResolveResult :=
  match provider with
  | none => ⟨.err .nilServiceProvider, none, ctr, false⟩
  | some provider =>
    match lookupRegs provider.registrations type_ with
    | none => ⟨.err (.unregistered type_), some provider, ctr, false⟩
    | some registration =>
      if registration.lifetime = Transient then
        match runFactory registration.factory ctr with
        | .error msg => ⟨.err (.factoryError msg), some provider, ctr, true⟩
        | .ok (v, ctr') => ⟨.ok v, some provider, ctr', true⟩
      else if registration.lifetime = Scoped then
        let r := provider.resolveScoped type_ registration.factory ctr
        ⟨r.outcome, some r.provider, r.nextAddr, r.factoryInvoked⟩
      else if registration.lifetime = Singleton then
        match runFactory registration.factory ctr with
        | .error msg => ⟨.err (.factoryError msg), some provider, ctr, true⟩
        | .ok (v, ctr') => ⟨.ok v, some provider, ctr', true⟩
      else
        ⟨.panicked "this code should be unreachable", some provider, ctr, false⟩

/-- Classified registration errors. -/
inductive RegError
  | errNonTransientStruct
  | errInvalidImplementation
  | nilServiceCollection
deriving DecidableEq

/-- getDefaultFactory: struct kinds get the `reflect.Zero` factory, pointers
to structs get the `reflect.New` factory, and every other kind panics with
"unimplemented" (the source's error return is always nil). -/
def getDefaultFactory (type_ : GoType) : GoResult factoryFunc :=
  if type_.kind = GoKind.struct then
    .ret (.zeroValue type_)
  else
    match type_ with
    | .ptr elem =>
      if elem.kind = GoKind.struct then .ret (.newPtr elem)
      else .panicked "unimplemented"
    | _ => .panicked "unimplemented"

/-- RegisterType: `serviceType` embeds `reflect.TypeFor[T]()` and `implType`
embeds `reflect.TypeOf(type_)`, the dynamic type of the example value. A nil
collection is an error; a struct-kind implementation with a non-Transient
lifetime is `ErrNonTransientStruct`; otherwise the default factory is built
(possibly panicking) and the registration is added under `serviceType`. The
returned pair is (error, collection state after the call). -/
def RegisterType (services : Option ServiceCollection) (lifetime : ServiceLifetime)
    (serviceType implType : GoType) :
    GoResult (Option RegError × Option ServiceCollection) :=
  match services with
  | none => .ret (some .nilServiceCollection, none)
  | some services =>
    if lifetime ≠ Transient ∧ implType.kind = GoKind.struct then
      .ret (some .errNonTransientStruct, some services)
    else
      match getDefaultFactory implType with
      | .panicked msg => .panicked msg
      | .ret factory =>
        .ret (none, some (addRegistration services serviceType ⟨lifetime, factory⟩))

/-- RegisterFunc: `serviceType` embeds `reflect.TypeFor[Service]()`,
`implType` embeds `reflect.TypeFor[Impl]()`, and `factory` the user closure.
A nil collection is an error; an implementation type not assignable to the
service type is `ErrInvalidImplementation` (checked first); a struct-kind
implementation with a non-Transient lifetime is `ErrNonTransientStruct`;
otherwise the registration is added under `serviceType`. -/
def RegisterFunc (services : Option ServiceCollection) (lifetime : ServiceLifetime)
    (serviceType implType : GoType) (factory : factoryFunc) :
    GoResult (Option RegError × Option ServiceCollection) :=
  match services with
  | none => .ret (some .nilServiceCollection, none)
  | some services =>
    if ¬ (implType.assignableTo serviceType = true) then
      .ret (some .errInvalidImplementation, some services)
    else if lifetime ≠ Transient ∧ implType.kind = GoKind.struct then
      .ret (some .errNonTransientStruct, some services)
    else
      .ret (none, some (addRegistration services serviceType ⟨lifetime, factory⟩))

/-- A ServiceResolver resolves instances of a requested type: the interface
is embedded as a function from the requested type to a value or an error
message. -/
structure ServiceResolver where
  resolve : GoType → Except String GoValue

/-- Errors the typed resolve helper can return. -/
inductive TypedResolveError
  | nilResolver
  | resolverError (msg : String)
  | typeMismatch (got want : GoType)
deriving DecidableEq

/-- Typed helper `Resolve[T]`: a nil resolver is an error; errors from the
resolver propagate; the type assertion `resolved.(T)` succeeds exactly when
the returned value's dynamic type is assignable to `T`, in which case the
value is returned unchanged, and fails with the type-mismatch error
otherwise. -/
def Resolve (T : GoType) (resolver : Option ServiceResolver) :
    Except TypedResolveError GoValue :=
  match resolver with
  | none => .error .nilResolver
  | some r =>
    match r.resolve T with
    | .error msg => .error (.resolverError msg)
    | .ok v =>
      if v.typeOf.assignableTo T then .ok v
      else .error (.typeMismatch v.typeOf T)

/-! Heap model of map aliasing, for the copy-on-build claim. A Go map value
is a reference into a heap of map cells; `Build` allocates a fresh cell and
copies the collection's contents into it (`maps.Copy`), while
`addRegistration` mutates the cell the collection refers to (allocating one
first when the field still holds the nil map). -/

/-- A heap of registration-map cells; a map reference is an index. -/
structure MapHeap where
  cells : List RegMap
deriving DecidableEq

/-- Dereference a map cell (out-of-range references read as empty). -/
def MapHeap.deref (h : MapHeap) (r : Nat) : RegMap :=
  (h.cells[r]?).getD []

/-- Allocate a fresh map cell holding `m`; returns the new reference. -/
def MapHeap.alloc (h : MapHeap) (m : RegMap) : Nat × MapHeap :=
  (h.cells.length, ⟨h.cells ++ [m]⟩)

/-- Overwrite the cell at reference `r`. -/
def MapHeap.update (h : MapHeap) (r : Nat) (m : RegMap) : MapHeap :=
  ⟨h.cells.set r m⟩

/-- A ServiceCollection at the heap level: its registrations field is either
the nil map or a reference into the heap. -/
structure ServiceCollectionH where
  registrations : Option Nat
deriving DecidableEq

/-- A ServiceProvider at the heap level: `Build` always makes its
registrations map, so the field is a proper reference (the scoped-instance
cache is treated by the functional model above). -/
structure ServiceProviderH where
  registrations : Nat
deriving DecidableEq

/-- Build at the heap level: allocate a fresh map cell and copy the
collection's current contents into it (`maps.Copy` into a freshly made
map). -/
def ServiceCollectionH.Build (c : ServiceCollectionH) (h : MapHeap) :
    ServiceProviderH × MapHeap :=
  let contents :=
    match c.registrations with
    | none => ([] : RegMap)
    | some r => h.deref r
  let (r, h') := h.alloc contents
  (⟨r⟩, h')

/-- addRegistration at the heap level: allocate the map on first use, then
mutate the referenced cell in place, storing the new entry. -/
def ServiceCollectionH.addRegistration (c : ServiceCollectionH) (h : MapHeap)
    (serviceType : GoType) (registration : serviceRegistration) :
    ServiceCollectionH × MapHeap :=
  match c.registrations with
  | none =>
    let (r, h') := h.alloc []
    (⟨some r⟩, h'.update r [(serviceType, registration)])
  | some r =>
    (⟨some r⟩, h.update r ((serviceType, registration) :: h.deref r))

/-! Concrete instances used to evaluate the model: the registration the
repository's end-to-end scenarios describe (a pointer-backed implementation
of the `fooer` interface), registered with each relevant lifetime. -/

/-- Collection holding `*assignableToFooer` registered as Singleton under its
own type, as `RegisterType` produces it. -/
def singletonTypeCollection : ServiceCollection :=
  ⟨some [(.ptr .assignableToFooer, ⟨Singleton, .newPtr .assignableToFooer⟩)]⟩

/-- Provider built from `singletonTypeCollection`. -/
def singletonTypeProvider : ServiceProvider :=
  ⟨some [(.ptr .assignableToFooer, ⟨Singleton, .newPtr .assignableToFooer⟩)], some []⟩

/-- Collection holding the `fooer` interface registered as Singleton with a
factory allocating a fresh `*assignableToFooer`, as `RegisterFunc` produces
it. -/
def greeterCollection : ServiceCollection :=
  ⟨some [(.fooer, ⟨Singleton, .newPtr .assignableToFooer⟩)]⟩

/-- Provider built from `greeterCollection`. -/
def greeterProvider : ServiceProvider :=
  ⟨some [(.fooer, ⟨Singleton, .newPtr .assignableToFooer⟩)], some []⟩

/-- Provider with `*assignableToFooer` registered as Scoped. -/
def scopedTypeProvider : ServiceProvider :=
  ⟨some [(.ptr .assignableToFooer, ⟨Scoped, .newPtr .assignableToFooer⟩)], some []⟩

/-- Provider with `*assignableToFooer` registered as Transient. -/
def transientTypeProvider : ServiceProvider :=
  ⟨some [(.ptr .assignableToFooer, ⟨Transient, .newPtr .assignableToFooer⟩)], some []⟩

/-- Provider with the `fooer` interface registered as Scoped with a factory
that always fails, as the error-retry scenario requires. -/
def failingScopedProvider : ServiceProvider :=
  ⟨some [(.fooer, ⟨Scoped, .failing "boom"⟩)], some []⟩

/-- A resolver that always returns the int value 0, mirroring the test
mock configured with `resolver.returns(0, nil)`. -/
def mockIntResolver : ServiceResolver :=
  ⟨fun _ => .ok (.intVal 0)⟩

/-- A resolver that always fails, mirroring the test mock configured with
`resolver.returns(0, expectedErr)`. -/
def mockErrResolver : ServiceResolver :=
  ⟨fun _ => .error "expected error"⟩

/-! Helper lemmas about the resolution protocol, shared by the claim
theorems below. -/

/-- A cache hit returns the cached instance on the fast path: provider state
unchanged, counter unchanged, factory not invoked. -/
theorem resolveScoped_hit (p : ServiceProvider) (t : GoType) (f : factoryFunc)
    (ctr : Nat) (v : GoValue)
    (hcache : lookupCache p.scopedInstances t = some v) :
    p.resolveScoped t f ctr = ⟨.ok v, p, ctr, false⟩ := by
  unfold ServiceProvider.resolveScoped
  rw [hcache]

/-- On a cache miss with a succeeding factory, the constructed instance is
returned and stored at the front of the (lazily allocated) cache. -/
theorem resolveScoped_miss_ok (p : ServiceProvider) (t : GoType) (f : factoryFunc)
    (ctr ctr' : Nat) (v : GoValue)
    (hcache : lookupCache p.scopedInstances t = none)
    (hfac : runFactory f ctr = .ok (v, ctr')) :
    p.resolveScoped t f ctr =
      ⟨.ok v, { p with scopedInstances := some ((t, v) :: p.scopedInstances.getD []) },
        ctr', true⟩ := by
  unfold ServiceProvider.resolveScoped
  rw [hcache, hfac]
  cases hsc : p.scopedInstances <;> simp [goMapWrite, hsc]

/-- On a cache miss with a failing factory, the error is returned and the
provider state is left unchanged. -/
theorem resolveScoped_miss_err (p : ServiceProvider) (t : GoType) (f : factoryFunc)
    (ctr : Nat) (msg : String)
    (hcache : lookupCache p.scopedInstances t = none)
    (hfac : runFactory f ctr = .error msg) :
    p.resolveScoped t f ctr = ⟨.err (.factoryError msg), p, ctr, true⟩ := by
  unfold ServiceProvider.resolveScoped
  rw [hcache, hfac]

/-- Resolve on a Transient registration reduces to a direct factory
invocation. -/
theorem resolve_dispatch_transient (p : ServiceProvider) (t : GoType)
    (reg : serviceRegistration) (ctr : Nat)
    (hreg : lookupRegs p.registrations t = some reg)
    (hlife : reg.lifetime = Transient) :
    ServiceProvider.Resolve (some p) t ctr =
      (match runFactory reg.factory ctr with
       | .error msg => ⟨.err (.factoryError msg), some p, ctr, true⟩
       | .ok (v, ctr') => ⟨.ok v, some p, ctr', true⟩) := by
  simp only [ServiceProvider.Resolve, hreg]
  simp [hlife]

/-- Resolve on a Scoped registration reduces to `resolveScoped`. -/
theorem resolve_dispatch_scoped (p : ServiceProvider) (t : GoType)
    (reg : serviceRegistration) (ctr : Nat)
    (hreg : lookupRegs p.registrations t = some reg)
    (hlife : reg.lifetime = Scoped) :
    ServiceProvider.Resolve (some p) t ctr =
      ⟨(p.resolveScoped t reg.factory ctr).outcome,
       some (p.resolveScoped t reg.factory ctr).provider,
       (p.resolveScoped t reg.factory ctr).nextAddr,
       (p.resolveScoped t reg.factory ctr).factoryInvoked⟩ := by
  simp only [ServiceProvider.Resolve, hreg]
  simp [hlife, Scoped, Transient]

/-- Resolve on a Singleton registration reduces to a direct factory
invocation: the source's Singleton case has no cache. -/
theorem resolve_dispatch_singleton (p : ServiceProvider) (t : GoType)
    (reg : serviceRegistration) (ctr : Nat)
    (hreg : lookupRegs p.registrations t = some reg)
    (hlife : reg.lifetime = Singleton) :
    ServiceProvider.Resolve (some p) t ctr =
      (match runFactory reg.factory ctr with
       | .error msg => ⟨.err (.factoryError msg), some p, ctr, true⟩
       | .ok (v, ctr') => ⟨.ok v, some p, ctr', true⟩) := by
  simp only [ServiceProvider.Resolve, hreg]
  simp [hlife, Singleton, Scoped, Transient]

/-- C1: the claim that Singleton resolutions are cached and the factory runs
at most once per provider tree is contradicted by the code: registering
`*assignableToFooer` as Singleton and building a provider, the first Resolve
invokes the factory and returns instance 0 without caching anything (the
provider state is unchanged), and the second Resolve invokes the factory
again and returns the distinct instance 1. -/
theorem singleton_resolution_not_cached :
    RegisterType (some ⟨none⟩) Singleton (.ptr .assignableToFooer) (.ptr .assignableToFooer)
      = .ret (none, some singletonTypeCollection)
    ∧ ServiceCollection.Build (some singletonTypeCollection) = .ok singletonTypeProvider
    ∧ ServiceProvider.Resolve (some singletonTypeProvider) (.ptr .assignableToFooer) 0
      = ⟨.ok (.ptrVal .assignableToFooer 0), some singletonTypeProvider, 1, true⟩
    ∧ ServiceProvider.Resolve (some singletonTypeProvider) (.ptr .assignableToFooer) 1
      = ⟨.ok (.ptrVal .assignableToFooer 1), some singletonTypeProvider, 2, true⟩
    ∧ GoValue.ptrVal .assignableToFooer 0 ≠ GoValue.ptrVal .assignableToFooer 1 :=
  ⟨by decide, rfl, by decide, by decide, by decide⟩

/-- C2: the claim that for Singleton registrations the factory runs exactly
once and every caller observes the identical instance is contradicted by the
code even for two non-overlapping callers: with the `fooer` interface
registered as Singleton via RegisterFunc, both of two successive Resolve
calls invoke the factory and they observe distinct instances. -/
theorem singleton_two_callers_two_constructions :
    RegisterFunc (some ⟨none⟩) Singleton .fooer (.ptr .assignableToFooer) (.newPtr .assignableToFooer)
      = .ret (none, some greeterCollection)
    ∧ ServiceCollection.Build (some greeterCollection) = .ok greeterProvider
    ∧ (ServiceProvider.Resolve (some greeterProvider) .fooer 0).factoryInvoked = true
    ∧ (ServiceProvider.Resolve (some greeterProvider) .fooer 0).provider = some greeterProvider
    ∧ (ServiceProvider.Resolve (some greeterProvider) .fooer 1).factoryInvoked = true
    ∧ (ServiceProvider.Resolve (some greeterProvider) .fooer 0).outcome
        = .ok (.ptrVal .assignableToFooer 0)
    ∧ (ServiceProvider.Resolve (some greeterProvider) .fooer 1).outcome
        = .ok (.ptrVal .assignableToFooer 1)
    ∧ ResolveOutcome.ok (.ptrVal .assignableToFooer 0) ≠ .ok (.ptrVal .assignableToFooer 1) :=
  ⟨by decide, rfl, by decide, by decide, by decide, by decide, by decide, by decide⟩

/-- C3: for a Scoped registration, after any successful Resolve of a key the
same provider resolves that key to the identical instance, with unchanged
state and without invoking the factory again. -/
theorem scoped_resolution_cached (p p' : ServiceProvider) (t : GoType)
    (reg : serviceRegistration) (ctr ctr' : Nat) (v : GoValue) (inv : Bool)
    (hreg : lookupRegs p.registrations t = some reg)
    (hlife : reg.lifetime = Scoped)
    (hres : ServiceProvider.Resolve (some p) t ctr = ⟨.ok v, some p', ctr', inv⟩) :
    ServiceProvider.Resolve (some p') t ctr' = ⟨.ok v, some p', ctr', false⟩ := by
  rw [resolve_dispatch_scoped p t reg ctr hreg hlife] at hres
  cases hcache : lookupCache p.scopedInstances t with
  | some w =>
    rw [resolveScoped_hit p t reg.factory ctr w hcache] at hres
    simp only [ResolveResult.mk.injEq, ResolveOutcome.ok.injEq, Option.some.injEq] at hres
    obtain ⟨hv, hp, hc, _⟩ := hres
    subst hv; subst hp; subst hc
    rw [resolve_dispatch_scoped _ t reg _ hreg hlife,
      resolveScoped_hit _ t reg.factory _ _ hcache]
  | none =>
    rcases hfac : runFactory reg.factory ctr with msg | ⟨w, c2⟩
    · rw [resolveScoped_miss_err p t reg.factory ctr msg hcache hfac] at hres
      simp at hres
    · rw [resolveScoped_miss_ok p t reg.factory ctr c2 w hcache hfac] at hres
      simp only [ResolveResult.mk.injEq, ResolveOutcome.ok.injEq, Option.some.injEq] at hres
      obtain ⟨hv, hp, hc, _⟩ := hres
      rw [← hp, ← hc, ← hv]
      rw [resolve_dispatch_scoped
          ⟨p.registrations, some ((t, w) :: p.scopedInstances.getD [])⟩ t reg c2 hreg hlife,
        resolveScoped_hit
          ⟨p.registrations, some ((t, w) :: p.scopedInstances.getD [])⟩ t reg.factory c2 w
          (by simp [lookupCache, lookupVal])]

/-- Witness for C3: with `*assignableToFooer` registered as Scoped, a first
resolution constructs instance 0 and caches it, and the second resolution
returns exactly that instance without invoking the factory. -/
theorem scoped_resolution_cached_witness :
    lookupRegs scopedTypeProvider.registrations (.ptr .assignableToFooer)
      = some ⟨Scoped, .newPtr .assignableToFooer⟩
    ∧ ServiceProvider.Resolve
        (some ⟨scopedTypeProvider.registrations,
          some [(.ptr .assignableToFooer, .ptrVal .assignableToFooer 0)]⟩)
        (.ptr .assignableToFooer) 1
      = ⟨.ok (.ptrVal .assignableToFooer 0),
         some ⟨scopedTypeProvider.registrations,
           some [(.ptr .assignableToFooer, .ptrVal .assignableToFooer 0)]⟩, 1, false⟩ :=
  ⟨by decide,
    scoped_resolution_cached scopedTypeProvider
      ⟨scopedTypeProvider.registrations,
        some [(.ptr .assignableToFooer, .ptrVal .assignableToFooer 0)]⟩
      (.ptr .assignableToFooer) ⟨Scoped, .newPtr .assignableToFooer⟩ 0 1
      (.ptrVal .assignableToFooer 0) true (by decide) rfl (by decide)⟩

/-- C4: for a Transient registration every Resolve invokes the factory and
leaves the provider state unchanged (no cache is populated), and with the
default pointer factory two consecutive resolutions yield distinct
instances. -/
theorem transient_resolution_fresh (p : ServiceProvider) (t e : GoType)
    (reg : serviceRegistration) (ctr : Nat)
    (hreg : lookupRegs p.registrations t = some reg)
    (hlife : reg.lifetime = Transient) :
    ((ServiceProvider.Resolve (some p) t ctr).provider = some p
      ∧ (ServiceProvider.Resolve (some p) t ctr).factoryInvoked = true)
    ∧ (reg.factory = .newPtr e →
        ServiceProvider.Resolve (some p) t ctr
          = ⟨.ok (.ptrVal e ctr), some p, ctr + 1, true⟩
        ∧ ServiceProvider.Resolve (some p) t (ctr + 1)
          = ⟨.ok (.ptrVal e (ctr + 1)), some p, ctr + 2, true⟩
        ∧ GoValue.ptrVal e ctr ≠ GoValue.ptrVal e (ctr + 1)) := by
  constructor
  · rw [resolve_dispatch_transient p t reg ctr hreg hlife]
    rcases hfac : runFactory reg.factory ctr with msg | ⟨w, c2⟩ <;> simp
  · intro hf
    refine ⟨?_, ?_, ?_⟩
    · rw [resolve_dispatch_transient p t reg ctr hreg hlife, hf]
      rfl
    · rw [resolve_dispatch_transient p t reg (ctr + 1) hreg hlife, hf]
      rfl
    · simp

/-- Witness for C4: two consecutive Transient resolutions of
`*assignableToFooer` allocate the distinct instances 0 and 1. -/
theorem transient_resolution_fresh_witness :
    lookupRegs transientTypeProvider.registrations (.ptr .assignableToFooer)
      = some ⟨Transient, .newPtr .assignableToFooer⟩
    ∧ ServiceProvider.Resolve (some transientTypeProvider) (.ptr .assignableToFooer) 0
        = ⟨.ok (.ptrVal .assignableToFooer 0), some transientTypeProvider, 1, true⟩
      ∧ ServiceProvider.Resolve (some transientTypeProvider) (.ptr .assignableToFooer) 1
        = ⟨.ok (.ptrVal .assignableToFooer 1), some transientTypeProvider, 2, true⟩
      ∧ GoValue.ptrVal .assignableToFooer 0 ≠ GoValue.ptrVal .assignableToFooer 1 :=
  ⟨by decide,
    (transient_resolution_fresh transientTypeProvider (.ptr .assignableToFooer)
      .assignableToFooer ⟨Transient, .newPtr .assignableToFooer⟩ 0
      (by decide) rfl).2 rfl⟩

/-- C5: for a Scoped or Singleton registration whose key is not yet cached,
a failing factory makes Resolve return that factory's error with the
provider state unchanged (nothing is cached), and every subsequent Resolve
of the key invokes the factory again. -/
theorem factory_error_not_memoized (p : ServiceProvider) (t : GoType)
    (reg : serviceRegistration) (ctr : Nat) (msg : String)
    (hreg : lookupRegs p.registrations t = some reg)
    (hlife : reg.lifetime = Scoped ∨ reg.lifetime = Singleton)
    (hmiss : lookupCache p.scopedInstances t = none)
    (hfac : runFactory reg.factory ctr = .error msg) :
    ServiceProvider.Resolve (some p) t ctr = ⟨.err (.factoryError msg), some p, ctr, true⟩
    ∧ ∀ c2, (ServiceProvider.Resolve (some p) t c2).factoryInvoked = true := by
  rcases hlife with hlife | hlife
  · constructor
    · rw [resolve_dispatch_scoped p t reg ctr hreg hlife,
        resolveScoped_miss_err p t reg.factory ctr msg hmiss hfac]
    · intro c2
      rw [resolve_dispatch_scoped p t reg c2 hreg hlife]
      rcases hf2 : runFactory reg.factory c2 with m | ⟨w, c3⟩
      · rw [resolveScoped_miss_err p t reg.factory c2 m hmiss hf2]
      · rw [resolveScoped_miss_ok p t reg.factory c2 c3 w hmiss hf2]
  · constructor
    · rw [resolve_dispatch_singleton p t reg ctr hreg hlife, hfac]
    · intro c2
      rw [resolve_dispatch_singleton p t reg c2 hreg hlife]
      rcases hf2 : runFactory reg.factory c2 with m | ⟨w, c3⟩ <;> simp

/-- Witness for C5: with `fooer` registered as Scoped with an always-failing
factory, Resolve returns the factory error, leaves the provider unchanged,
and a retry invokes the factory again. -/
theorem factory_error_not_memoized_witness :
    lookupRegs failingScopedProvider.registrations .fooer = some ⟨Scoped, .failing "boom"⟩
    ∧ lookupCache failingScopedProvider.scopedInstances .fooer = none
    ∧ ServiceProvider.Resolve (some failingScopedProvider) .fooer 0
        = ⟨.err (.factoryError "boom"), some failingScopedProvider, 0, true⟩
    ∧ (ServiceProvider.Resolve (some failingScopedProvider) .fooer 0).factoryInvoked = true :=
  ⟨by decide, by decide,
    (factory_error_not_memoized failingScopedProvider .fooer ⟨Scoped, .failing "boom"⟩ 0 "boom"
      (by decide) (Or.inl rfl) (by decide) rfl).1,
    (factory_error_not_memoized failingScopedProvider .fooer ⟨Scoped, .failing "boom"⟩ 0 "boom"
      (by decide) (Or.inl rfl) (by decide) rfl).2 0⟩

/-- C6: the claim fails as stated: `RegisterFunc` checks assignability of
the implementation to the capability before the value-like/lifetime
constraint, so a struct implementation that is not assignable to the
capability fails with `ErrInvalidImplementation` rather than
`ErrNonTransientStruct` when registered Scoped — and it also fails, rather
than succeeds, when registered Transient. -/
theorem struct_register_func_precedence_cx :
    RegisterFunc (some ⟨none⟩) Scoped .fooer .structWithUnexportedFields
        (.pureVal (.structVal .structWithUnexportedFields))
      = .ret (some .errInvalidImplementation, some ⟨none⟩)
    ∧ RegError.errInvalidImplementation ≠ RegError.errNonTransientStruct
    ∧ RegisterFunc (some ⟨none⟩) Transient .fooer .structWithUnexportedFields
        (.pureVal (.structVal .structWithUnexportedFields))
      = .ret (some .errInvalidImplementation, some ⟨none⟩) := by
  exact ⟨by decide, by decide, by decide⟩

/-- C6 (amended): for a struct-kind implementation type, `RegisterType`
rejects Scoped and Singleton with `ErrNonTransientStruct` leaving the
collection unchanged and succeeds with Transient; `RegisterFunc` behaves the
same way provided the implementation is assignable to the capability, while
an unassignable implementation fails with `ErrInvalidImplementation`
regardless of lifetime. -/
theorem register_struct_value_lifetimes (c : ServiceCollection)
    (lt : ServiceLifetime) (sT iT : GoType) (f : factoryFunc)
    (hkind : iT.kind = GoKind.struct) :
    ((lt = Scoped ∨ lt = Singleton) →
      RegisterType (some c) lt sT iT = .ret (some .errNonTransientStruct, some c)
      ∧ (iT.assignableTo sT = true →
          RegisterFunc (some c) lt sT iT f = .ret (some .errNonTransientStruct, some c)))
    ∧ RegisterType (some c) Transient sT iT
        = .ret (none, some (addRegistration c sT ⟨Transient, .zeroValue iT⟩))
    ∧ (iT.assignableTo sT = true →
        RegisterFunc (some c) Transient sT iT f
          = .ret (none, some (addRegistration c sT ⟨Transient, f⟩)))
    ∧ (iT.assignableTo sT = false →
        RegisterFunc (some c) lt sT iT f
          = .ret (some .errInvalidImplementation, some c)) := by
  refine ⟨?_, ?_, ?_, ?_⟩
  · rintro (h | h) <;> subst h <;>
      exact ⟨by simp [RegisterType, hkind, Scoped, Singleton, Transient],
        fun ha => by simp [RegisterFunc, ha, hkind, Scoped, Singleton, Transient]⟩
  · simp [RegisterType, getDefaultFactory, hkind, Transient]
  · intro ha
    simp [RegisterFunc, ha, Transient]
  · intro ha
    simp [RegisterFunc, ha]

/-- Witness for C6 (amended): the struct `assignableToFooer` registered
under the `fooer` capability it implements. -/
theorem register_struct_value_lifetimes_witness :
    GoType.kind .assignableToFooer = GoKind.struct
    ∧ RegisterType (some ⟨none⟩) Scoped .fooer .assignableToFooer
        = .ret (some .errNonTransientStruct, some ⟨none⟩)
    ∧ RegisterFunc (some ⟨none⟩) Scoped .fooer .assignableToFooer
        (.pureVal (.structVal .assignableToFooer))
        = .ret (some .errNonTransientStruct, some ⟨none⟩)
    ∧ RegisterType (some ⟨none⟩) Transient .fooer .assignableToFooer
        = .ret (none, some (addRegistration ⟨none⟩ .fooer ⟨Transient, .zeroValue .assignableToFooer⟩)) :=
  ⟨rfl,
   ((register_struct_value_lifetimes ⟨none⟩ Scoped .fooer .assignableToFooer
      (.pureVal (.structVal .assignableToFooer)) rfl).1 (Or.inl rfl)).1,
   ((register_struct_value_lifetimes ⟨none⟩ Scoped .fooer .assignableToFooer
      (.pureVal (.structVal .assignableToFooer)) rfl).1 (Or.inl rfl)).2 (by decide),
   (register_struct_value_lifetimes ⟨none⟩ Transient .fooer .assignableToFooer
      (.pureVal (.structVal .assignableToFooer)) rfl).2.1⟩

/-- C7: the claim that the registration surface never faults is contradicted
by the code: `RegisterType` for an `int` representation reaches the
`getDefaultFactory` path for kinds other than struct and pointer-to-struct,
which panics with "unimplemented". -/
theorem register_type_int_panics_cx :
    RegisterType (some ⟨none⟩) Transient .intT .intT = .panicked "unimplemented" := by
  decide

/-- C7 (amended): `RegisterFunc` on a non-nil collection always returns
normally with success or a classified error, for every implementation type
and lifetime; `RegisterType` returns normally when the example value's
dynamic type is a struct or a pointer to struct, and panics with
"unimplemented" for other representations. -/
theorem register_surface_no_fault (c : ServiceCollection) (lt : ServiceLifetime)
    (sT iT : GoType)
    (hrep : iT.kind = GoKind.struct ∨ ∃ e, iT = GoType.ptr e ∧ e.kind = GoKind.struct) :
    (∃ r, RegisterType (some c) lt sT iT = .ret r)
    ∧ ∀ jT g, ∃ r, RegisterFunc (some c) lt sT jT g = .ret r := by
  constructor
  · by_cases hl : lt ≠ Transient ∧ iT.kind = GoKind.struct
    · exact ⟨(some .errNonTransientStruct, some c), by simp [RegisterType, hl]⟩
    · rcases hrep with hk | ⟨e, rfl, he⟩
      · have hlt : lt = Transient := by
          by_contra hne
          exact hl ⟨hne, hk⟩
        subst hlt
        exact ⟨(none, some (addRegistration c sT ⟨Transient, .zeroValue iT⟩)),
          by simp [RegisterType, getDefaultFactory, hk]⟩
      · have hk2 : (GoType.ptr e).kind = GoKind.pointer := rfl
        have hgdf : getDefaultFactory (GoType.ptr e) = .ret (.newPtr e) := by
          unfold getDefaultFactory
          simp [hk2, he]
        exact ⟨(none, some (addRegistration c sT ⟨lt, .newPtr e⟩)),
          by simp [RegisterType, hl, hgdf]⟩
  · intro jT g
    by_cases ha : jT.assignableTo sT = true
    · by_cases hs : lt ≠ Transient ∧ jT.kind = GoKind.struct
      · exact ⟨(some .errNonTransientStruct, some c), by simp [RegisterFunc, ha, hs]⟩
      · exact ⟨(none, some (addRegistration c sT ⟨lt, g⟩)), by simp [RegisterFunc, ha, hs]⟩
    · exact ⟨(some .errInvalidImplementation, some c), by simp [RegisterFunc, ha]⟩

/-- Witness for C7 (amended): a struct representation registers without a
fault, and RegisterFunc returns normally even for an unsupported kind. -/
theorem register_surface_no_fault_witness :
    GoType.kind .assignableToFooer = GoKind.struct
    ∧ (∃ r, RegisterType (some ⟨none⟩) Scoped .fooer .assignableToFooer = .ret r)
    ∧ (∃ r, RegisterFunc (some ⟨none⟩) Scoped .fooer .intT (.pureVal (.intVal 0)) = .ret r) :=
  ⟨rfl,
   (register_surface_no_fault ⟨none⟩ Scoped .fooer .assignableToFooer (Or.inl rfl)).1,
   (register_surface_no_fault ⟨none⟩ Scoped .fooer .assignableToFooer (Or.inl rfl)).2
     .intT (.pureVal (.intVal 0))⟩

/-- C9: for every resolver and requested type, the typed helper propagates
resolver errors, fails with the type-mismatch error when the returned value's
dynamic type is not assignable to the requested type, and returns exactly the
resolved value when it is assignable. -/
theorem typed_resolve_contract (T : GoType) (r : ServiceResolver) :
    (∀ msg, r.resolve T = .error msg →
      Resolve T (some r) = .error (.resolverError msg))
    ∧ (∀ v, r.resolve T = .ok v → v.typeOf.assignableTo T = false →
      Resolve T (some r) = .error (.typeMismatch v.typeOf T))
    ∧ (∀ v, r.resolve T = .ok v → v.typeOf.assignableTo T = true →
      Resolve T (some r) = .ok v) := by
  refine ⟨?_, ?_, ?_⟩
  · intro msg h
    simp [Resolve, h]
  · intro v h h2
    simp [Resolve, h, h2]
  · intro v h h2
    simp [Resolve, h, h2]

/-- Witness for C9: a failing resolver's error propagates; a resolver
returning an int value mismatches a string request and satisfies an int
request. -/
theorem typed_resolve_contract_witness :
    mockErrResolver.resolve .intT = .error "expected error"
    ∧ Resolve .intT (some mockErrResolver) = .error (.resolverError "expected error")
    ∧ Resolve .stringT (some mockIntResolver) = .error (.typeMismatch .intT .stringT)
    ∧ Resolve .intT (some mockIntResolver) = .ok (.intVal 0) :=
  ⟨rfl,
   (typed_resolve_contract .intT mockErrResolver).1 "expected error" rfl,
   (typed_resolve_contract .stringT mockIntResolver).2.1 (.intVal 0) rfl rfl,
   (typed_resolve_contract .intT mockIntResolver).2.2 (.intVal 0) rfl rfl⟩

/-- C10: Resolve on a zero-valued provider (both maps nil) returns the
unregistered-capability error for every key instead of faulting, and
`resolveScoped` never produces the nil-map-write panic for any provider
state, because it allocates the cache before writing. -/
theorem zero_provider_resolve_safe :
    (∀ t ctr, ServiceProvider.Resolve (some ⟨none, none⟩) t ctr
        = ⟨.err (.unregistered t), some ⟨none, none⟩, ctr, false⟩)
    ∧ ∀ p t f ctr msg, (ServiceProvider.resolveScoped p t f ctr).outcome ≠ .panicked msg := by
  constructor
  · intro t ctr
    rfl
  · intro p t f ctr msg
    rcases h1 : lookupCache p.scopedInstances t with _ | w
    · rcases h2 : runFactory f ctr with m | ⟨w, c2⟩
      · simp [ServiceProvider.resolveScoped, h1, h2]
      · cases h3 : p.scopedInstances with
        | none =>
          simp [ServiceProvider.resolveScoped, h2, h3, goMapWrite, lookupCache]
        | some l =>
          rw [h3] at h1
          simp only [lookupCache] at h1
          simp [ServiceProvider.resolveScoped, h1, h2, h3, goMapWrite, lookupCache]
    · simp [ServiceProvider.resolveScoped, h1]

/-- C8: Build snapshots the registrations: in the heap model of map
aliasing, after building a provider from a collection, a later registration
call on that collection (which mutates the collection's map cell, or
allocates a fresh one) leaves the map cell the provider refers to unchanged,
and hence the results of the provider's Resolve calls unchanged. -/
theorem build_snapshots_registrations (c : ServiceCollectionH) (h h' h2 : MapHeap)
    (p : ServiceProviderH) (c' : ServiceCollectionH) (k : GoType)
    (reg : serviceRegistration)
    (hvalid : ∀ r, c.registrations = some r → r < h.cells.length)
    (hbuild : c.Build h = (p, h'))
    (hadd : c.addRegistration h' k reg = (c', h2)) :
    h2.deref p.registrations = h'.deref p.registrations
    ∧ ∀ t ctr,
        ServiceProvider.Resolve (some ⟨some (h2.deref p.registrations), some []⟩) t ctr
          = ServiceProvider.Resolve (some ⟨some (h'.deref p.registrations), some []⟩) t ctr := by
  have hderef : h2.deref p.registrations = h'.deref p.registrations := by
    cases hc : c.registrations with
    | none =>
      simp only [ServiceCollectionH.Build, MapHeap.alloc, hc] at hbuild
      injection hbuild with hp hh
      subst hp
      subst hh
      simp only [ServiceCollectionH.addRegistration, MapHeap.alloc, MapHeap.update, hc] at hadd
      injection hadd with hc2 hh2
      subst hh2
      simp only [MapHeap.deref]
      rw [List.getElem?_set_ne (by simp), List.getElem?_append_left (by simp)]
    | some r =>
      have hvr : r < h.cells.length := hvalid r hc
      simp only [ServiceCollectionH.Build, MapHeap.alloc, hc] at hbuild
      injection hbuild with hp hh
      subst hp
      subst hh
      simp only [ServiceCollectionH.addRegistration, MapHeap.update, hc] at hadd
      injection hadd with hc2 hh2
      subst hh2
      simp only [MapHeap.deref]
      rw [List.getElem?_set_ne (Nat.ne_of_lt hvr)]
  exact ⟨hderef, fun t ctr => by rw [hderef]⟩

/-- Witness for C8: building from an empty collection and then registering
the `fooer` Singleton mutates a fresh cell, leaving the provider's snapshot
cell (still empty) untouched. -/
theorem build_snapshots_registrations_witness :
    ServiceCollectionH.Build ⟨none⟩ ⟨[]⟩ = (⟨0⟩, ⟨[[]]⟩)
    ∧ ServiceCollectionH.addRegistration ⟨none⟩ ⟨[[]]⟩ .fooer
        ⟨Singleton, .newPtr .assignableToFooer⟩
        = (⟨some 1⟩, ⟨[[], [(.fooer, ⟨Singleton, .newPtr .assignableToFooer⟩)]]⟩)
    ∧ MapHeap.deref ⟨[[], [(.fooer, ⟨Singleton, .newPtr .assignableToFooer⟩)]]⟩ 0
        = MapHeap.deref ⟨[[]]⟩ 0 :=
  ⟨rfl, rfl,
   (build_snapshots_registrations ⟨none⟩ ⟨[]⟩ ⟨[[]]⟩
     ⟨[[], [(.fooer, ⟨Singleton, .newPtr .assignableToFooer⟩)]]⟩ ⟨0⟩ ⟨some 1⟩ .fooer
     ⟨Singleton, .newPtr .assignableToFooer⟩
     (fun _ hr => nomatch hr) rfl rfl).1⟩

end Inject
